import Mathlib

/-!
Verification of the kule REST facade (src/kule/kule.py) against its
specification. The Python source is shallowly embedded below: documents are
association lists of string keys and JSON-compatible values, the MongoDB
store (an external collaborator, pymongo 2.5 via an unacknowledged
Connection) is a list-backed structure exposing the find, insert, update and
remove contract described in the spec, and each HTTP handler method of class
Kule becomes a pure Lean function from the request data to an outcome plus
the updated store. The repository targets Python 2 (setup.py pins
bottle 0.11.6 and pymongo 2.5); where Python 2 semantics decide behaviour
(ordering of a list against an int, truthiness of empty containers) the
embedding follows Python 2, with a comment at the spot.
-/

namespace Kule

/-- JSON-compatible field values, plus the bson ObjectId value used for the
distinguished identifier field. -/
inductive Value where
  | vNull
  | vBool (b : Bool)
  | vInt (n : Int)
  | vStr (s : String)
  | vId (oid : String)
  deriving DecidableEq, Repr

/-- A document: an unordered mapping from field names to values, embedded as
an association list (payloads parsed from JSON objects have distinct keys). -/
abbrev Document := List (String × Value)

/-- The key list of a document, as Python dict.keys(). -/
def keys (d : Document) : List String := d.map Prod.fst

/-- Python 2 comparison of a list against an int (source line 19,
json.keys() > 3). CPython 2 orders any number below any value of any
non-numeric type, so a list — empty or not — always compares greater than
an int. The arguments are therefore ignored. -/
def py2_list_gt_int (_keyList : List String) (_bound : Int) : Bool :=
  true

/-- Source lines 17-19: verify a json message. The docstring and the spec
intend a field-count check, but the code compares the key list itself
against 3 under Python 2 mixed-type ordering. -/
def verify (json : Document) : Bool :=
  py2_list_gt_int (keys json) 3

/-- The two output encoders taken from helpers (jsonify, csvify). The
encoder bodies live in helpers.py, an external leaf; the registry below only
selects between them, so they are embedded as opaque tags. -/
inductive Formatter where
  | jsonify
  | csvify
  deriving DecidableEq, Repr

/-- Source lines 21-24: collections.defaultdict mapping a format token to an
encoder, with jsonify as the default for any unknown token. -/
def formatters (token : String) : Formatter :=
  if token = ".json" then Formatter.jsonify
  else if token = ".csv" then Formatter.csvify
  else Formatter.jsonify

/-- Source lines 26-29: collections.defaultdict mapping a format token to a
content type, defaulting to application/json. -/
def content_types (token : String) : String :=
  if token = ".json" then "application/json"
  else if token = ".csv" then "text/csv"
  else "application/json"

/-- A hex digit test, for ObjectId validation. -/
def isHexDigit (c : Char) : Bool :=
  c.isDigit || (97 ≤ c.toNat && c.toNat ≤ 102) || (65 ≤ c.toNat && c.toNat ≤ 70)

/-- bson (pymongo 2.5) ObjectId construction from a string: a 24-character
hex string, or a 12-character string taken as 12 raw bytes, is accepted;
anything else raises InvalidId. -/
def isValidOid (s : String) : Bool :=
  (s.length = 24 && s.toList.all isHexDigit) || s.length = 12

/-- Hex digit character for fresh identifier generation. -/
def hexDigit (n : Nat) : Char :=
  if n < 10 then Char.ofNat (48 + n) else Char.ofNat (87 + n % 16)

/-- Least-significant-first hex expansion, padded to the given width. -/
def hexStringAux : Nat → Nat → List Char
  | 0, _ => []
  | k + 1, n => hexDigit (n % 16) :: hexStringAux k (n / 16)

/-- The identifier the store assigns to the n-th inserted document: an
opaque 24-hex-character ObjectId, modelling the generator inside the
external store engine. -/
def freshOid (n : Nat) : String :=
  String.mk (hexStringAux 24 n)

/-- The MongoDB database handle: named collections of documents plus the
state of the identifier generator. Collections exist implicitly (an unknown
name reads as empty). -/
structure Store where
  colls : List (String × List Document)
  nextId : Nat
  deriving DecidableEq, Repr

/-- The documents of a named collection; a name never written to is an
empty collection. -/
def Store.docs (s : Store) (c : String) : List Document :=
  match s.colls.lookup c with
  | some l => l
  | none => []

/-- Replace the contents of one named collection. -/
def Store.setColl (s : Store) (c : String) (l : List Document) : Store :=
  { colls := (c, l) :: s.colls.filter (fun p => p.1 ≠ c), nextId := s.nextId }

/-- Does a document carry the given ObjectId in its distinguished field? -/
def idMatches (d : Document) (oid : String) : Bool :=
  match d.lookup "_id" with
  | some (Value.vId s) => s = oid
  | _ => false

/-- The store find_one with the filter on the distinguished identifier
field, as issued by get_detail and patch_detail. -/
def find_one_id (l : List Document) (oid : String) : Option Document :=
  l.find? (fun d => idMatches d oid)

/-- The Kule application configuration: the optional allow-list of
collection names given to the constructor, and the per-collection bundle
hooks (methods whose names are built from the collection name on a
subclass; the base class defines none, so the lookup may fail). -/
structure KuleApp where
  collections : Option (List String)
  bundlers : String → Option (Document → Document)

/-- Source lines 43-47 (get_collection), the permission half: abort(403)
fires when self.collections is truthy — in Python 2 a non-empty list — and
the name is not in it. A None or empty allow-list permits everything. -/
def collection_allowed (app : KuleApp) (collection : String) : Bool :=
  match app.collections with
  | none => true
  | some cs => if cs.isEmpty then true else cs.contains collection

/-- Source lines 133-135: the dummy bundler, an identity transform. -/
def build_bundle (data : Document) : Document :=
  data

/-- Source lines 128-131 (get_bundler): look up the hook named after the
collection, falling back to build_bundle. -/
def get_bundler (app : KuleApp) (name : String) : Document → Document :=
  match app.bundlers name with
  | some f => f
  | none => build_bundle

/-- The observable outcome of one handler invocation: a returned body with
the response status left or set by the handler, a bottle abort with a
status, or an uncaught Python exception propagating out of the handler. -/
inductive Outcome (α : Type) where
  | ok (status : Nat) (body : α)
  | aborted (status : Nat)
  | uncaught
  deriving DecidableEq, Repr

/-- Map a function over the body of a successful outcome. -/
def Outcome.map (f : α → β) : Outcome α → Outcome β
  | Outcome.ok s a => Outcome.ok s (f a)
  | Outcome.aborted s => Outcome.aborted s
  | Outcome.uncaught => Outcome.uncaught

/-- The HTTP status bottle ultimately sends for an outcome: returned bodies
and aborts keep their status, an uncaught exception is rendered by the
framework as 500 Internal Server Error. -/
def final_status : Outcome α → Nat
  | Outcome.ok s _ => s
  | Outcome.aborted s => s
  | Outcome.uncaught => 500

/-- Source lines 52-53, the continuation of get_detail on the result the
store find_one call produced: a missing document aborts 404, and so does a
falsy document — in Python 2 an empty mapping — through the
data-or-abort idiom on line 52; otherwise the document passes through the
resolved bundler and is returned. -/
def get_detail_core (app : KuleApp) (collection : String) (data : Option Document) :
    Outcome Document :=
  match data with
  | none => Outcome.aborted 404
  | some d => if d = [] then Outcome.aborted 404
              else Outcome.ok 200 (get_bundler app collection d)

/-- Source lines 49-53 (get_detail): permission check, ObjectId decoding of
the raw identifier (an invalid string raises bson InvalidId, uncaught), the
find_one store call, then get_detail_core. -/
def get_detail (app : KuleApp) (store : Store) (collection : String) (pk : String) :
    Outcome Document :=
  if collection_allowed app collection then
    if isValidOid pk then
      get_detail_core app collection (find_one_id (store.docs collection) pk)
    else Outcome.uncaught
  else Outcome.aborted 403

/-- Python del of the distinguished identifier key from a payload dict
(source lines 58-61 of put_detail). -/
def strip_id (payload : Document) : Document :=
  payload.filter (fun kv => kv.1 ≠ "_id")

/-- The update document put_detail sends to the store update call: the
payload with any client-supplied identifier field deleted (source lines
58-62). -/
def put_update_doc (payload : Document) : Document :=
  strip_id payload

/-- The document patch_detail places under the partial-update operator in
its store update call: the payload exactly as received (source lines
69-70); no identifier field is removed. -/
def patch_update_doc (payload : Document) : Document :=
  payload

/-- Replace the first list element satisfying the predicate; the store
update call touches a single matching document. -/
def updateFirst (l : List Document) (p : Document → Bool) (f : Document → Document) :
    List Document :=
  match l with
  | [] => []
  | d :: ds => if p d then f d :: ds else d :: updateFirst ds p f

/-- The store update with a plain replacement document (no update
operators), as issued by put_detail: the matching document is replaced
wholesale, the immutable identifier is kept by the engine, and a missing
match is a no-op (no upsert). -/
def mongo_replace (s : Store) (c : String) (oid : String) (doc : Document) : Store :=
  s.setColl c (updateFirst (s.docs c)
    (fun d => idMatches d oid)
    (fun _ => ("_id", Value.vId oid) :: doc))

/-- Set one field of a document, overwriting in place or appending. -/
def setField (d : Document) (k : String) (v : Value) : Document :=
  if d.any (fun kv => kv.1 = k) then
    d.map (fun kv => if kv.1 = k then (k, v) else kv)
  else d ++ [(k, v)]

/-- Apply a partial field-set update document to a stored document. -/
def setFields (d : Document) (upd : Document) : Document :=
  upd.foldl (fun acc kv => setField acc kv.1 kv.2) d

/-- The store update with the partial field-set operator, as issued by
patch_detail. The engine refuses to modify the immutable identifier: an
update document naming the identifier field fails server-side, and with the
unacknowledged pymongo 2.5 Connection the failure is silent, leaving the
collection unchanged. A missing match is a no-op. -/
def mongo_set (s : Store) (c : String) (oid : String) (upd : Document) : Store :=
  if (keys upd).contains "_id" then s
  else s.setColl c (updateFirst (s.docs c)
    (fun d => idMatches d oid)
    (fun d => setFields d upd))

/-- Source lines 55-64 (put_detail): permission check, deletion of the
identifier field from the payload, the replacing store update (ObjectId
decoding of the raw identifier raises uncaught on invalid input), status
set to 202, and the jsonified stripped payload returned. -/
def put_detail (app : KuleApp) (store : Store) (collection : String) (pk : String)
    (payload : Document) : Outcome Document × Store :=
  if collection_allowed app collection then
    if isValidOid pk then
      (Outcome.ok 202 (put_update_doc payload),
        mongo_replace store collection pk (put_update_doc payload))
    else (Outcome.uncaught, store)
  else (Outcome.aborted 403, store)

/-- Source lines 66-72 (patch_detail): permission check, the partial-update
store call with the payload under the field-set operator (ObjectId decoding
raises uncaught on invalid input), status set to 202, then delegation to
get_detail on the same collection name and identifier. get_detail never
assigns a status itself, so a successful delegated fetch keeps 202, while
its abort(404) replaces the response. -/
def patch_detail (app : KuleApp) (store : Store) (collection : String) (pk : String)
    (payload : Document) : Outcome Document × Store :=
  if collection_allowed app collection then
    if isValidOid pk then
      let store' := mongo_set store collection pk (patch_update_doc payload)
      match get_detail app store' collection pk with
      | Outcome.ok _ d => (Outcome.ok 202 d, store')
      | o => (o, store')
    else (Outcome.uncaught, store)
  else (Outcome.aborted 403, store)

/-- The store insert issued by post_list: the payload is stored, receiving
a fresh engine-assigned ObjectId when it carries none, and the value of the
identifier field of the stored document is returned. -/
def mongo_insert (s : Store) (c : String) (doc : Document) : Value × Store :=
  match doc.lookup "_id" with
  | some v => (v, s.setColl c (s.docs c ++ [doc]))
  | none =>
      let oid := Value.vId (freshOid s.nextId)
      (oid,
        { (s.setColl c (s.docs c ++ [("_id", oid) :: doc])) with nextId := s.nextId + 1 })

/-- Source lines 80-90 (post_list): permission check, the verify shape
check, then either insertion with status 201 and a body holding the new
identifier, or status 400 with the unverified-request error body and no
insertion. -/
def post_list (app : KuleApp) (store : Store) (collection : String)
    (payload : Document) : Outcome Document × Store :=
  if collection_allowed app collection then
    if verify payload then
      let r := mongo_insert store collection payload
      (Outcome.ok 201 [("_id", r.1)], r.2)
    else
      (Outcome.ok 400 [("error", Value.vStr "unverified json request")], store)
  else (Outcome.aborted 403, store)

/-- Decimal parse of a character list: defined for a non-empty all-digit
list, none otherwise. -/
def parseNatDigits (cs : List Char) : Option Nat :=
  if cs = [] then none
  else if cs.all Char.isDigit then
    some (cs.foldl (fun n c => n * 10 + (c.toNat - 48)) 0)
  else none

/-- Modelled from the spec: helpers.py is not under src (only its import on
source line 9 is), so int_or_default follows spec section 4.2
decode_pagination — non-parseable or missing inputs fall back to the
default — together with the section 3 invariant that non-numeric or
negative input falls back to the default, never failing. -/
def int_or_default (raw : Option String) (default : Nat) : Nat :=
  match raw with
  | none => default
  | some s =>
      match parseNatDigits s.toList with
      | some n => n
      | none => default

/-- A raw client-supplied JSON-encoded parameter, abstracted to whether the
external parser (bson extended-JSON loads for the filter) accepts it and to
what it denotes: a filter is a field-to-expected-value mapping. -/
inductive RawQuery where
  | wellFormed (f : List (String × Value))
  | malformed
  deriving DecidableEq, Repr

/-- A raw client-supplied fields parameter: a JSON array of field names, or
text the external json.loads rejects. -/
inductive RawFields where
  | wellFormed (fs : List String)
  | malformed
  deriving DecidableEq, Repr

/-- Source lines 118-121 (get_query): an absent query parameter yields the
empty filter, a present one goes through bson loads, whose parse failure
raises an uncaught exception — returned here as none. -/
def get_query (raw : Option RawQuery) : Option (List (String × Value)) :=
  match raw with
  | none => some []
  | some (RawQuery.wellFormed f) => some f
  | some RawQuery.malformed => none

/-- Source lines 123-126 (get_fields): an absent fields parameter yields no
projection, a present one goes through json loads, whose parse failure
raises an uncaught exception — returned here as none. -/
def get_fields (raw : Option RawFields) : Option (Option (List String)) :=
  match raw with
  | none => some none
  | some (RawFields.wellFormed fs) => some (some fs)
  | some RawFields.malformed => none

/-- Does a document match a filter? Each filter entry must be carried by
the document — the equality fragment of the store query language, which is
all this facade constructs. -/
def matchesFilter (q : List (String × Value)) (d : Document) : Bool :=
  q.all (fun kv => d.lookup kv.1 = some kv.2)

/-- The store projection: with no field list the document is returned
whole; with one, only the named fields and the identifier survive. -/
def project (fields : Option (List String)) (d : Document) : Document :=
  match fields with
  | none => d
  | some fs => d.filter (fun kv => fs.contains kv.1 || kv.1 = "_id")

/-- The raw query-string parameters of a list request, as read on source
lines 95-98. -/
structure ListRequest where
  limit : Option String
  offset : Option String
  query : Option RawQuery
  fields : Option RawFields
  deriving DecidableEq, Repr

/-- The meta block of the page envelope (source lines 101-105). -/
structure Meta where
  limit : Nat
  offset : Nat
  total_count : Nat
  deriving DecidableEq, Repr

/-- The page envelope returned by the list operation (source lines
113-116). -/
structure PageEnvelope where
  meta : Meta
  objects : List Document
  deriving DecidableEq, Repr

/-- What get_list hands to the response: the negotiated content type, the
selected encoder and the page envelope it encodes. -/
structure ListResponse where
  content_type : String
  formatter : Formatter
  envelope : PageEnvelope
  deriving DecidableEq, Repr

/-- The body of a successful get_list: pagination decoded with defaults 20
and 0, the filtered find with projection, total_count counted on the
filtered set before skip and limit, the skip-offset limit-length slice
passed document-wise through the resolved bundler, and the format token
resolved through both registries (source lines 94-116). -/
def build_list_response (app : KuleApp) (store : Store) (collection : String)
    (req : ListRequest) (format : String) (query : List (String × Value))
    (fields : Option (List String)) : ListResponse :=
  let limit := int_or_default req.limit 20
  let offset := int_or_default req.offset 0
  let matching := (store.docs collection).filter (matchesFilter query)
  let objects :=
    (((matching.map (project fields)).drop offset).take limit).map
      (get_bundler app collection)
  { content_type := content_types format
    formatter := formatters format
    envelope :=
      { meta := { limit := limit, offset := offset, total_count := matching.length }
        objects := objects } }

/-- Source lines 92-116 (get_list): permission check, then the filter and
field decoders — either parse failure raises uncaught — then the assembled
page. The store skip and limit calls on the cursor are the drop and take of
the spec collaborator contract. -/
def get_list (app : KuleApp) (store : Store) (collection : String)
    (req : ListRequest) (format : String) : Outcome ListResponse :=
  if collection_allowed app collection then
    match get_query req.query with
    | none => Outcome.uncaught
    | some query =>
        match get_fields req.fields with
        | none => Outcome.uncaught
        | some fields =>
            Outcome.ok 200 (build_list_response app store collection req format query fields)
  else Outcome.aborted 403

/-- The HTTP methods a client may send. -/
inductive Method where
  | get
  | post
  | options
  | put
  | patch
  | delete
  deriving DecidableEq, Repr

/-- The two generic route shapes registered on source lines 174-177: the
collection list route (with its optional format suffix) and the
collection-plus-identifier detail route. -/
inductive RouteKind where
  | list
  | detail
  deriving DecidableEq, Repr

/-- A dispatched response body: a jsonified mapping, a list page, or the
empty body of the OPTIONS handler. -/
inductive Body where
  | json (d : Document)
  | page (r : ListResponse)
  | empty
  deriving DecidableEq, Repr

/-- Source lines 156-177 (dispatch_views) for the base Kule class, which
defines no per-collection magical views, composed with the router of the
external bottle 0.11 collaborator. Routes are registered only for the GET,
POST and OPTIONS methods; the handler bound to a combination is the method
named after it when the class has one, and not_implemented — abort(501),
source lines 198-200 — otherwise, which is the case for the POST detail
combination. The OPTIONS handlers are empty_response (source lines
137-143), which performs no permission check and returns an empty 200
body. A request whose method has no registered route on a matching path is
rejected by the router with 405 Method Not Allowed. -/
def dispatch (app : KuleApp) (store : Store) (m : Method) (k : RouteKind)
    (collection : String) (format : String) (pk : String) (payload : Document)
    (req : ListRequest) : Outcome Body × Store :=
  match m, k with
  | Method.get, RouteKind.list =>
      ((get_list app store collection req format).map Body.page, store)
  | Method.post, RouteKind.list =>
      let r := post_list app store collection payload
      (r.1.map Body.json, r.2)
  | Method.options, RouteKind.list => (Outcome.ok 200 Body.empty, store)
  | Method.get, RouteKind.detail =>
      ((get_detail app store collection pk).map Body.json, store)
  | Method.post, RouteKind.detail => (Outcome.aborted 501, store)
  | Method.options, RouteKind.detail => (Outcome.ok 200 Body.empty, store)
  | _, _ => (Outcome.aborted 405, store)

/-! Concrete fixtures for closed theorems and witnesses. -/

/-- An application with no allow-list and no bundle hooks: a plain
instantiation of the base Kule class. -/
def exApp : KuleApp :=
  { collections := none, bundlers := fun _ => none }

/-- An application whose allow-list admits only the users collection. -/
def exAllowApp : KuleApp :=
  { collections := some ["users"], bundlers := fun _ => none }

/-- An application carrying a non-identity bundle hook for the users
collection. -/
def exBundlerApp : KuleApp :=
  { collections := none,
    bundlers := fun n =>
      if n = "users" then some (fun d => ("extra", Value.vInt 7) :: d) else none }

/-- An empty store. -/
def exStore : Store :=
  { colls := [], nextId := 0 }

/-- A syntactically valid 24-hex-character ObjectId string. -/
def oidA : String :=
  "aaaaaaaaaaaaaaaaaaaaaaaa"

/-- A store holding two users documents. -/
def exStoreTwo : Store :=
  { colls := [("users",
      [[("_id", Value.vId (freshOid 0)), ("a", Value.vInt 1)],
       [("_id", Value.vId (freshOid 1)), ("a", Value.vInt 1)]])],
    nextId := 2 }

/-- A list request with no client parameters. -/
def exReq : ListRequest :=
  { limit := none, offset := none, query := none, fields := none }

/-- A list request whose filter parameter fails to parse. -/
def exReqMalformed : ListRequest :=
  { limit := none, offset := none, query := some RawQuery.malformed, fields := none }

/-- A list request asking for at most one object. -/
def exReqLim1 : ListRequest :=
  { limit := some "1", offset := none, query := none, fields := none }

/-! Helper lemmas shared by the claim theorems. -/

/-- Reading back the collection just written. -/
theorem Store.docs_setColl (s : Store) (c : String) (l : List Document) :
    (s.setColl c l).docs c = l := by
  simp [Store.docs, Store.setColl, List.lookup]

/-- A one-document update leaves a list untouched when nothing matches. -/
theorem updateFirst_eq_of_find_none (l : List Document) (p : Document → Bool)
    (f : Document → Document) (h : l.find? p = none) : updateFirst l p f = l := by
  induction l with
  | nil => rfl
  | cons d ds ih =>
      rw [List.find?] at h
      cases hp : p d with
      | true => rw [hp] at h; exact absurd h (by simp)
      | false =>
          rw [hp] at h
          simp [updateFirst, hp, ih h]

/-- The partial-update store call is a no-op on the collection when no
document matches the identifier. -/
theorem mongo_set_docs_of_missing (s : Store) (c : String) (oid : String)
    (upd : Document) (h : find_one_id (s.docs c) oid = none) :
    (mongo_set s c oid upd).docs c = s.docs c := by
  unfold mongo_set
  split
  · rfl
  · rw [Store.docs_setColl, updateFirst_eq_of_find_none]
    exact h

/-! Claim theorems. -/

/-- C1: the claim reads that a create payload with at most three top-level
fields is rejected with 400 and nothing inserted, while a larger payload is
inserted with 201. On the code, verify compares the key list itself —
not its length — against 3, and under Python 2 mixed-type ordering a list
always exceeds an int, so even the empty payload passes verification and is
inserted with status 201: this theorem evaluates post_list at the empty
payload and shows verification succeeding, the 201 status, the
new-identifier body and the document landing in the store. -/
theorem post_list_inserts_empty_payload :
    verify [] = true ∧
    post_list exApp exStore "users" []
      = (Outcome.ok 201 [("_id", Value.vId (freshOid 0))],
         { colls := [("users", [[("_id", Value.vId (freshOid 0))]])], nextId := 1 }) ∧
    (post_list exApp exStore "users" []).2.docs "users"
      = [[("_id", Value.vId (freshOid 0))]] := by
  decide

/-- C2 counterexample: the claim reads that both update handlers discard a
client-supplied identifier field from the payload before the update is
applied; but the document patch_detail places under the field-set operator
of its store update call is the payload exactly as received, so at this
concrete payload the identifier key is still present in the sent update. -/
theorem patch_keeps_client_id_counterexample :
    "_id" ∈ keys (patch_update_doc [("_id", Value.vId oidA), ("a", Value.vInt 1)]) ∧
    patch_update_doc [("_id", Value.vId oidA), ("a", Value.vInt 1)]
      = [("_id", Value.vId oidA), ("a", Value.vInt 1)] := by
  constructor
  · simp [patch_update_doc, keys]
  · rfl

/-- C2 (amended): put_detail deletes any client-supplied identifier field
from the payload before issuing its replacing update, but patch_detail
passes the payload unmodified into the field-set update document, so a
client-supplied identifier does reach the store on the patch path. -/
theorem put_strips_id_patch_passes_id (payload : Document) :
    "_id" ∉ keys (put_update_doc payload) ∧ patch_update_doc payload = payload := by
  constructor
  · simp [put_update_doc, strip_id, keys, List.mem_map, List.mem_filter]
  · rfl

/-- C3 counterexample: the claim reads that an invalid identifier string on
a detail operation and an unparseable filter on the list operation are
caught at the Gateway boundary and turned into 400 responses; but the code
installs no handler for either failure, so at these concrete inputs both
raise uncaught exceptions rendered by the framework as 500, and neither
produces a 400. -/
theorem invalid_input_uncaught_counterexample :
    get_detail exApp exStore "users" "zz" = Outcome.uncaught ∧
    final_status (get_detail exApp exStore "users" "zz") = 500 ∧
    get_detail exApp exStore "users" "zz" ≠ Outcome.aborted 400 ∧
    get_list exApp exStore "users" exReqMalformed ".json" = Outcome.uncaught ∧
    get_list exApp exStore "users" exReqMalformed ".json" ≠ Outcome.aborted 400 := by
  decide

/-- C3 (amended): an invalid identifier string on get_detail, and a filter
parameter that fails to parse on get_list, are not caught anywhere in the
gateway: the InvalidId and parse exceptions propagate uncaught out of the
handler, and the framework renders them as 500 Internal Server Error, not
as 400. -/
theorem invalid_input_yields_500 (app : KuleApp) (store : Store) (c : String)
    (pk : String) (req : ListRequest) (fmt : String)
    (ha : collection_allowed app c = true) (hpk : isValidOid pk = false)
    (hq : req.query = some RawQuery.malformed) :
    get_detail app store c pk = Outcome.uncaught ∧
    final_status (get_detail app store c pk) = 500 ∧
    get_list app store c req fmt = Outcome.uncaught ∧
    final_status (get_list app store c req fmt) = 500 := by
  have h1 : get_detail app store c pk = Outcome.uncaught := by
    simp [get_detail, ha, hpk]
  have h2 : get_list app store c req fmt = Outcome.uncaught := by
    simp [get_list, ha, hq, get_query]
  exact ⟨h1, by rw [h1]; rfl, h2, by rw [h2]; rfl⟩

/-- C3 witness: the amended theorem applied at a concrete invalid
identifier and a concrete malformed filter. -/
theorem invalid_input_yields_500_witness :
    get_detail exApp exStore "users" "zz" = Outcome.uncaught ∧
    final_status (get_detail exApp exStore "users" "zz") = 500 ∧
    get_list exApp exStore "users" exReqMalformed ".json" = Outcome.uncaught ∧
    final_status (get_list exApp exStore "users" exReqMalformed ".json") = 500 :=
  invalid_input_yields_500 exApp exStore "users" "zz" exReqMalformed ".json"
    (by decide) (by decide) (by decide)

/-- C4 counterexample: the claim reads that put_detail returns the payload
after passing it through the bundler resolved for the collection; at this
concrete application the resolved users bundler is not the identity, yet
put_detail returns the payload untouched by it. -/
theorem put_skips_bundler_counterexample :
    (put_detail exBundlerApp exStore "users" oidA [("a", Value.vInt 1)]).1
      = Outcome.ok 202 [("a", Value.vInt 1)] ∧
    get_bundler exBundlerApp "users" [("a", Value.vInt 1)] ≠ [("a", Value.vInt 1)] := by
  decide

/-- C4 (amended): for every collection and payload, put_detail returns the
identifier-stripped payload directly with status 202; the resolved bundler
is not applied on this path. -/
theorem put_returns_stripped_payload (app : KuleApp) (store : Store) (c : String)
    (pk : String) (payload : Document)
    (ha : collection_allowed app c = true) (hpk : isValidOid pk = true) :
    (put_detail app store c pk payload).1 = Outcome.ok 202 (strip_id payload) := by
  simp [put_detail, ha, hpk, put_update_doc]

/-- C4 witness: the amended theorem applied at a concrete collection,
identifier and payload. -/
theorem put_returns_stripped_payload_witness :
    (put_detail exApp exStore "users" oidA [("_id", Value.vId oidA), ("a", Value.vInt 1)]).1
      = Outcome.ok 202 (strip_id [("_id", Value.vId oidA), ("a", Value.vInt 1)]) :=
  put_returns_stripped_payload exApp exStore "users" oidA
    [("_id", Value.vId oidA), ("a", Value.vInt 1)] (by decide) (by decide)

/-- C5 counterexample: the claim reads that with an allow-list configured
every request naming an unlisted collection fails with 403, for every
method including OPTIONS; but the OPTIONS handlers are empty_response,
which performs no permission check, so at this concrete application an
OPTIONS request on an unlisted collection returns an empty 200 body. -/
theorem options_bypasses_allowlist_counterexample :
    (dispatch exAllowApp exStore Method.options RouteKind.list "orders" ".json" ""
        [] exReq).1 = Outcome.ok 200 Body.empty ∧
    (dispatch exAllowApp exStore Method.options RouteKind.list "orders" ".json" ""
        [] exReq).1 ≠ Outcome.aborted 403 := by
  decide

/-- C5 (amended): with a non-empty allow-list configured and a collection
name outside it, the GET list, POST list and GET detail operations fail
with 403; the POST detail combination is bound to not_implemented and
yields 501 before any permission check; the OPTIONS handlers bypass the
allow-list and return an empty 200 body; methods with no registered route
are rejected with 405. -/
theorem allowlist_enforcement_by_method (app : KuleApp) (store : Store)
    (cs : List String) (c : String) (fmt : String) (pk : String)
    (payload : Document) (req : ListRequest)
    (hcs : app.collections = some cs) (hne : cs ≠ []) (hc : cs.contains c = false) :
    (dispatch app store Method.get RouteKind.list c fmt pk payload req).1
      = Outcome.aborted 403 ∧
    (dispatch app store Method.post RouteKind.list c fmt pk payload req).1
      = Outcome.aborted 403 ∧
    (dispatch app store Method.get RouteKind.detail c fmt pk payload req).1
      = Outcome.aborted 403 ∧
    (dispatch app store Method.post RouteKind.detail c fmt pk payload req).1
      = Outcome.aborted 501 ∧
    (dispatch app store Method.options RouteKind.list c fmt pk payload req).1
      = Outcome.ok 200 Body.empty ∧
    (dispatch app store Method.options RouteKind.detail c fmt pk payload req).1
      = Outcome.ok 200 Body.empty ∧
    (dispatch app store Method.delete RouteKind.list c fmt pk payload req).1
      = Outcome.aborted 405 := by
  have hemp : cs.isEmpty = false := by
    cases cs with
    | nil => exact absurd rfl hne
    | cons a l => rfl
  have hallow : collection_allowed app c = false := by
    simp only [collection_allowed, hcs]
    rw [hemp]
    simpa using hc
  refine ⟨?_, ?_, ?_, rfl, rfl, rfl, rfl⟩
  · simp [dispatch, get_list, hallow, Outcome.map]
  · simp [dispatch, post_list, hallow, Outcome.map]
  · simp [dispatch, get_detail, hallow, Outcome.map]

/-- C5 witness: the amended theorem applied at the concrete allow-list
containing only users and the unlisted orders collection. -/
theorem allowlist_enforcement_by_method_witness :
    (dispatch exAllowApp exStore Method.get RouteKind.list "orders" ".json" "x"
        [] exReq).1 = Outcome.aborted 403 ∧
    (dispatch exAllowApp exStore Method.post RouteKind.list "orders" ".json" "x"
        [] exReq).1 = Outcome.aborted 403 ∧
    (dispatch exAllowApp exStore Method.get RouteKind.detail "orders" ".json" "x"
        [] exReq).1 = Outcome.aborted 403 ∧
    (dispatch exAllowApp exStore Method.post RouteKind.detail "orders" ".json" "x"
        [] exReq).1 = Outcome.aborted 501 ∧
    (dispatch exAllowApp exStore Method.options RouteKind.list "orders" ".json" "x"
        [] exReq).1 = Outcome.ok 200 Body.empty ∧
    (dispatch exAllowApp exStore Method.options RouteKind.detail "orders" ".json" "x"
        [] exReq).1 = Outcome.ok 200 Body.empty ∧
    (dispatch exAllowApp exStore Method.delete RouteKind.list "orders" ".json" "x"
        [] exReq).1 = Outcome.aborted 405 :=
  allowlist_enforcement_by_method exAllowApp exStore ["users"] "orders" ".json" "x"
    [] exReq rfl (by decide) (by decide)

/-- C6: whenever get_list returns a page envelope, the objects list is no
longer than the decoded limit, and total_count equals the number of stored
documents matching the decoded filter before the skip and limit are
applied. -/
theorem get_list_pagination_bound (app : KuleApp) (store : Store) (c : String)
    (req : ListRequest) (fmt : String) (q : List (String × Value))
    (resp : ListResponse)
    (hq : get_query req.query = some q)
    (h : get_list app store c req fmt = Outcome.ok 200 resp) :
    resp.envelope.objects.length ≤ resp.envelope.meta.limit ∧
    resp.envelope.meta.total_count
      = ((store.docs c).filter (matchesFilter q)).length := by
  unfold get_list at h
  cases ha : collection_allowed app c with
  | false => rw [ha] at h; exact absurd h (by simp)
  | true =>
      rw [ha] at h
      simp only [if_true] at h
      rw [hq] at h
      cases hf : get_fields req.fields with
      | none => rw [hf] at h; exact absurd h (by simp)
      | some fields =>
          rw [hf] at h
          have hr : resp = build_list_response app store c req fmt q fields := by
            cases h
            rfl
          subst hr
          constructor
          · simp only [build_list_response, List.length_map, List.length_take]
            exact Nat.min_le_left _ _
          · rfl

/-- C6 witness: the theorem applied at a concrete two-document store with
limit one and the empty filter. -/
theorem get_list_pagination_bound_witness :
    get_query exReqLim1.query = some [] ∧
    get_list exApp exStoreTwo "users" exReqLim1 ".json"
      = Outcome.ok 200 (build_list_response exApp exStoreTwo "users" exReqLim1 ".json" [] none) ∧
    (build_list_response exApp exStoreTwo "users" exReqLim1 ".json" [] none).envelope.objects.length
      ≤ (build_list_response exApp exStoreTwo "users" exReqLim1 ".json" [] none).envelope.meta.limit ∧
    (build_list_response exApp exStoreTwo "users" exReqLim1 ".json" [] none).envelope.meta.total_count
      = ((exStoreTwo.docs "users").filter (matchesFilter [])).length :=
  ⟨rfl, rfl,
    get_list_pagination_bound exApp exStoreTwo "users" exReqLim1 ".json" []
      (build_list_response exApp exStoreTwo "users" exReqLim1 ".json" [] none) rfl rfl⟩

/-- C7 counterexample: the claim reads that a method and path combination
with no bound handler — for example DELETE on any route — resolves to
501; but DELETE is never registered with the router at all, so the router
rejects it with 405 Method Not Allowed at this concrete request. -/
theorem delete_is_405_counterexample :
    (dispatch exApp exStore Method.delete RouteKind.detail "users" ".json" oidA
        [] exReq).1 = Outcome.aborted 405 ∧
    (dispatch exApp exStore Method.delete RouteKind.detail "users" ".json" oidA
        [] exReq).1 ≠ Outcome.aborted 501 := by
  decide

/-- C7 (amended): among the registered methods, the one combination with no
gateway handler — POST on a detail route — is bound to not_implemented and
yields 501; the PUT, PATCH and DELETE methods are deliberately not
registered with the router and are rejected with 405 Method Not Allowed on
every route. -/
theorem unbound_combination_status (app : KuleApp) (store : Store) (c : String)
    (fmt : String) (pk : String) (payload : Document) (req : ListRequest)
    (k : RouteKind) :
    (dispatch app store Method.post RouteKind.detail c fmt pk payload req).1
      = Outcome.aborted 501 ∧
    (dispatch app store Method.put k c fmt pk payload req).1 = Outcome.aborted 405 ∧
    (dispatch app store Method.patch k c fmt pk payload req).1 = Outcome.aborted 405 ∧
    (dispatch app store Method.delete k c fmt pk payload req).1 = Outcome.aborted 405 := by
  refine ⟨rfl, ?_, ?_, ?_⟩ <;> cases k <;> rfl

/-- C8: formatter resolution is total — the JSON and CSV suffixes map to
their encoder and content-type pair, and every other token falls back to
the JSON encoder with the application/json content type. -/
theorem formatter_resolution_total :
    (formatters ".json" = Formatter.jsonify ∧ content_types ".json" = "application/json") ∧
    (formatters ".csv" = Formatter.csvify ∧ content_types ".csv" = "text/csv") ∧
    ∀ t : String, t ≠ ".json" → t ≠ ".csv" →
      formatters t = Formatter.jsonify ∧ content_types t = "application/json" := by
  refine ⟨by decide, by decide, ?_⟩
  intro t h1 h2
  constructor
  · simp [formatters, h1, h2]
  · simp [content_types, h1, h2]

/-- C8 witness: the fallback clause of the theorem applied at a concrete
unknown token. -/
theorem formatter_resolution_total_witness :
    formatters ".xyz" = Formatter.jsonify ∧ content_types ".xyz" = "application/json" :=
  formatter_resolution_total.2.2 ".xyz" (by decide) (by decide)

/-- C9: when the store find_one call hands get_detail a present but empty —
hence falsy — document, the data-or-abort idiom on source line 52 aborts
with 404 instead of returning the empty document. Stated on the
find_one-result continuation of get_detail: in the list-backed store model
a document matched by its identifier always carries the identifier field
and is never empty, so the branch is exercised through the store interface,
whose contract allows any mapping. -/
theorem falsy_document_404 (app : KuleApp) (c : String) :
    get_detail_core app c (some []) = Outcome.aborted 404 := by
  rfl

/-- C10: a patch_detail on a valid identifier matching no stored document
leaves the collection unchanged, and its delegation to get_detail then
aborts with 404, overriding the previously assigned 202 accepted status. -/
theorem patch_missing_document_404 (app : KuleApp) (store : Store) (c : String)
    (pk : String) (payload : Document)
    (ha : collection_allowed app c = true) (hpk : isValidOid pk = true)
    (hmiss : find_one_id (store.docs c) pk = none) :
    (patch_detail app store c pk payload).1 = Outcome.aborted 404 := by
  have hd : (mongo_set store c pk (patch_update_doc payload)).docs c = store.docs c :=
    mongo_set_docs_of_missing store c pk (patch_update_doc payload) hmiss
  have hget : get_detail app (mongo_set store c pk (patch_update_doc payload)) c pk
      = Outcome.aborted 404 := by
    simp [get_detail, ha, hpk, hd, hmiss, get_detail_core]
  simp [patch_detail, ha, hpk, hget]

/-- C10 witness: the theorem applied at an empty store and a concrete valid
identifier. -/
theorem patch_missing_document_404_witness :
    (patch_detail exApp exStore "users" oidA [("x", Value.vInt 1)]).1
      = Outcome.aborted 404 :=
  patch_missing_document_404 exApp exStore "users" oidA [("x", Value.vInt 1)]
    (by decide) (by decide) (by decide)

end Kule
